import Mathlib

/-!
Verification of the pure-autosize library (src/pure-autosize.js) against its
natural-language specification.

The development shallowly embeds the core of the library:
* `TextareaResizer.update` (the height resolver), with its helpers
  `willReduceHeight` and `calculateHeightFromScrollHeight`;
* the stylesheet state maintained by `StylesheetManager` (abstracted as
  `SheetContent`: the generated CSS always has the fixed shape
  `height: Hpx !important; overflow-x: hidden !important;
  word-wrap: break-word !important; <overflowRule>`, so only the height and
  the variable overflow rule are recorded);
* the registry / lazy-loader state machine (`AutosizeRegistry.add` /
  `remove`, `LazyLoader.setup` / `cleanup`, IntersectionObserver signals);
* the programmatic value setter (`ValueSetter.install` / `destroy` and the
  wrapped setter's behaviour);
* the form-reset handler's scheduling (`FormResetHandler.#onReset`).

Numeric CSS quantities (`parseFloat` results, `scrollHeight`) are modelled as
rationals. JS strings are modelled as Lean `String`; a possibly
null / undefined string is `Option String` (a JS-falsy empty string is
`some ""`, which the source's truthiness tests treat specially and the
embedding reproduces explicitly).
-/

namespace PureAutosize

/-- The subset of `window.getComputedStyle` results that
`TextareaResizer.update` reads.  `maxHeight = none` models the computed value
`'none'`; `some q` models a finite value whose `parseFloat` is `q`. -/
structure ComputedStyle where
  boxSizing : String
  paddingTop : ℚ
  paddingBottom : ℚ
  borderTopWidth : ℚ
  borderBottomWidth : ℚ
  maxHeight : Option ℚ
  overflowY : String
deriving DecidableEq, Repr

/-- State of one element's constructed stylesheet (`StylesheetManager`).
`empty` is the state after `reset()` / `replace('')`; `rules h r` is the
state after `replace` with the resolver's CSS block, which always carries a
height of `h` px together with the fixed `overflow-x: hidden` /
`word-wrap: break-word` rules and the variable overflow rule `r`. -/
inductive SheetContent where
  | empty : SheetContent
  | rules (heightPx : ℚ) (overflowRule : String) : SheetContent
deriving DecidableEq, Repr

/-- `TextareaResizer.#willReduceHeight(previousValue)` from the source:
`previousValue` falsy (absent / `''`) yields `false`; otherwise `false`
exactly when the current value starts with `previousValue`. -/
def willReduceHeight (value : String) (previousValue : Option String) : Bool :=
  match previousValue with
  | none => false
  | some prev =>
    if prev = "" then false
    else if value.startsWith prev then false
    else true

/-- `TextareaResizer.#calculateHeightFromScrollHeight(scrollHeight, computedStyle)`
from the source. -/
def calculateHeightFromScrollHeight (scrollHeight : ℚ) (cs : ComputedStyle) : ℚ :=
  if cs.boxSizing = "content-box" then
    scrollHeight - (cs.paddingTop + cs.paddingBottom)
  else
    scrollHeight + cs.borderTopWidth + cs.borderBottomWidth

/-- Observable result of one `TextareaResizer.update` call.
`sheet` is the stylesheet state when the call returns; `clearedBeforeMeasure`
records whether the `#willReduceHeight` branch ran `stylesheetManager.reset()`
before the `scrollHeight` read at the height computation; `candidate` is the
local `newHeight` before the max-height clamp, `applied` the final height
written (both `none` when the call short-circuits); `overflowRule` is the
variable overflow rule included in the written CSS. -/
structure UpdateResult where
  sheet : SheetContent
  clearedBeforeMeasure : Bool
  candidate : Option ℚ
  applied : Option ℚ
  overflowRule : Option String
deriving DecidableEq, Repr

namespace TextareaResizer

/-- `TextareaResizer.update(options)` from the source.  `scrollHeight` is the
natural content extent the call reads at the height computation (after the
conditional `reset()`), `value` the current content, `previousValue` the
`options.previousValue` hint (`none` when absent), `sheet0` the stylesheet
state on entry (the source overwrites it on every path, so the result does
not depend on it). -/
def update (scrollHeight : ℚ) (value : String) (previousValue : Option String)
    (cs : ComputedStyle) (sheet0 : SheetContent) : UpdateResult :=
  if scrollHeight = 0 ∨ value = "" then
    { sheet := SheetContent.empty
      clearedBeforeMeasure := false
      candidate := none
      applied := none
      overflowRule := none }
  else
    let cleared := willReduceHeight value previousValue
    let newHeight := calculateHeightFromScrollHeight scrollHeight cs
    let clamped : ℚ × String :=
      match cs.maxHeight with
      | some mh =>
        if newHeight > mh then
          (mh, if cs.overflowY = "hidden" then "overflow: scroll !important;" else "")
        else
          (newHeight, if cs.overflowY = "hidden" then "" else "overflow: hidden !important;")
      | none =>
        (newHeight, if cs.overflowY = "hidden" then "" else "overflow: hidden !important;")
    { sheet := SheetContent.rules clamped.1 clamped.2
      clearedBeforeMeasure := cleared
      candidate := some newHeight
      applied := some clamped.1
      overflowRule := some clamped.2 }

end TextareaResizer

/-- The spec's notion of a pure append: the prior-content hint is non-null,
non-empty, and the current content begins with it. -/
def pureAppend (value : String) (prev : Option String) : Bool :=
  match prev with
  | none => false
  | some p => (!(p = "" : Bool)) && value.startsWith p

/-- A concrete computed style used for counterexamples and witnesses:
border-box sizing, no padding or borders, no max-height, `overflow-y: auto`. -/
def sampleStyle : ComputedStyle :=
  { boxSizing := "border-box"
    paddingTop := 0
    paddingBottom := 0
    borderTopWidth := 0
    borderBottomWidth := 0
    maxHeight := none
    overflowY := "auto" }

/-- Claim C1 as stated: on every non-short-circuiting update, the override is
cleared before measurement exactly when the change is not a pure append (in
particular always when the hint is absent or empty). -/
def C1Statement : Prop :=
  ∀ (sh : ℚ) (v : String) (prev : Option String) (cs : ComputedStyle)
    (sheet0 : SheetContent),
    sh ≠ 0 → v ≠ "" →
    (TextareaResizer.update sh v prev cs sheet0).clearedBeforeMeasure
      = !(pureAppend v prev)

/-- A concrete computed style with a finite max-height of 120 and
`overflow-y: hidden`, used for the clamping scenario. -/
def clampStyle : ComputedStyle :=
  { boxSizing := "border-box"
    paddingTop := 0
    paddingBottom := 0
    borderTopWidth := 0
    borderBottomWidth := 0
    maxHeight := some 120
    overflowY := "hidden" }

/-- Claim C1 counterexample: the claim as stated is false.  At
`scrollHeight = 10`, `value = "a"`, no prior-content hint, the change is not
a pure append, so the claim demands a clear before measurement; the source's
`#willReduceHeight` returns `false` on a falsy `previousValue`, so no clear
happens. -/
theorem C1_counterexample : ¬ C1Statement := by
  intro h
  have h10 : (10 : ℚ) ≠ 0 := by norm_num
  have hv : ("a" : String) ≠ "" := by decide
  have hc := h 10 "a" none sampleStyle SheetContent.empty h10 hv
  exact absurd hc (by decide)

/-- Claim C1 (amended): on every non-short-circuiting update, the override is
cleared before measurement exactly when the prior-content hint is present,
non-empty, and the current content does not begin with it; in particular a
recomputation with no prior-content hint at all (such as the viewport-resize
pass) never clears the override before measuring. -/
theorem C1_amended (sh : ℚ) (v : String) (prev : Option String)
    (cs : ComputedStyle) (sheet0 : SheetContent)
    (h1 : sh ≠ 0) (h2 : v ≠ "") :
    ((TextareaResizer.update sh v prev cs sheet0).clearedBeforeMeasure
      = (match prev with
         | none => false
         | some p => (!(p = "" : Bool)) && !(v.startsWith p))) ∧
    (TextareaResizer.update sh v none cs sheet0).clearedBeforeMeasure = false := by
  have hcond : ¬ (sh = 0 ∨ v = "") := by
    rintro (h | h)
    · exact h1 h
    · exact h2 h
  constructor
  · simp only [TextareaResizer.update, if_neg hcond]
    cases prev with
    | none => rfl
    | some p =>
      by_cases hp : p = ""
      · simp [willReduceHeight, hp]
      · by_cases hs : v.startsWith p
        · simp [willReduceHeight, hp, hs]
        · simp [willReduceHeight, hp, hs]
  · simp only [TextareaResizer.update, if_neg hcond]
    rfl

/-- Claim C1 amended witness: concrete instance with a non-append change
(prior `"ab"`, new content `"a"`), which does clear, and the no-hint case,
which does not. -/
theorem C1_amended_witness :
    (10 : ℚ) ≠ 0 ∧ ("a" : String) ≠ "" ∧
    (TextareaResizer.update 10 "a" (some "ab") sampleStyle SheetContent.empty).clearedBeforeMeasure
      = true ∧
    (TextareaResizer.update 10 "a" none sampleStyle SheetContent.empty).clearedBeforeMeasure
      = false := by
  have h1 : (10 : ℚ) ≠ 0 := by norm_num
  have h2 : ("a" : String) ≠ "" := by decide
  have h := C1_amended 10 "a" (some "ab") sampleStyle SheetContent.empty h1 h2
  exact ⟨h1, h2, by rw [h.1]; decide, h.2⟩

/-- Claim C2: on every update that reaches the height calculation, the
candidate height is `scrollHeight - (paddingTop + paddingBottom)` under
`content-box` sizing and `scrollHeight + borderTopWidth + borderBottomWidth`
otherwise. -/
theorem C2_candidate_height (sh : ℚ) (v : String) (prev : Option String)
    (cs : ComputedStyle) (sheet0 : SheetContent)
    (h1 : sh ≠ 0) (h2 : v ≠ "") :
    (TextareaResizer.update sh v prev cs sheet0).candidate =
      some (if cs.boxSizing = "content-box"
            then sh - (cs.paddingTop + cs.paddingBottom)
            else sh + cs.borderTopWidth + cs.borderBottomWidth) := by
  have hcond : ¬ (sh = 0 ∨ v = "") := by
    rintro (h | h)
    · exact h1 h
    · exact h2 h
  simp only [TextareaResizer.update, if_neg hcond]
  rfl

/-- Claim C2 witness: concrete border-box instance where the candidate is
`scrollHeight + 0 + 0 = 10`. -/
theorem C2_witness :
    (10 : ℚ) ≠ 0 ∧ ("x" : String) ≠ "" ∧
    (TextareaResizer.update 10 "x" none sampleStyle SheetContent.empty).candidate
      = some 10 := by
  have h1 : (10 : ℚ) ≠ 0 := by norm_num
  have h2 : ("x" : String) ≠ "" := by decide
  have h := C2_candidate_height 10 "x" none sampleStyle SheetContent.empty h1 h2
  exact ⟨h1, h2, by rw [h]; norm_num [sampleStyle]⟩

/-- Claim C3: on every update that reaches the height calculation, a finite
max-height below the candidate clamps the applied height to the max and emits
`overflow: scroll` exactly when computed `overflow-y` is `hidden`; otherwise
the candidate is applied and `overflow: hidden` is emitted exactly when
computed `overflow-y` is not already `hidden`. -/
theorem C3_maxHeight_clamp (sh : ℚ) (v : String) (prev : Option String)
    (cs : ComputedStyle) (sheet0 : SheetContent) (mh : ℚ)
    (h1 : sh ≠ 0) (h2 : v ≠ "") :
    (cs.maxHeight = some mh → calculateHeightFromScrollHeight sh cs > mh →
      (TextareaResizer.update sh v prev cs sheet0).applied = some mh ∧
      ((TextareaResizer.update sh v prev cs sheet0).overflowRule
          = some "overflow: scroll !important;" ↔ cs.overflowY = "hidden")) ∧
    ((cs.maxHeight = none ∨
        (cs.maxHeight = some mh ∧ ¬ calculateHeightFromScrollHeight sh cs > mh)) →
      (TextareaResizer.update sh v prev cs sheet0).applied
          = some (calculateHeightFromScrollHeight sh cs) ∧
      ((TextareaResizer.update sh v prev cs sheet0).overflowRule
          = some "overflow: hidden !important;" ↔ cs.overflowY ≠ "hidden")) := by
  have hcond : ¬ (sh = 0 ∨ v = "") := by
    rintro (h | h)
    · exact h1 h
    · exact h2 h
  constructor
  · intro hmx hgt
    simp only [TextareaResizer.update, if_neg hcond, hmx, if_pos hgt]
    by_cases hov : cs.overflowY = "hidden"
    · simp [hov]
    · simp [hov]
  · rintro (hmx | ⟨hmx, hle⟩)
    · simp only [TextareaResizer.update, if_neg hcond, hmx]
      by_cases hov : cs.overflowY = "hidden"
      · simp [hov]
      · simp [hov]
    · simp only [TextareaResizer.update, if_neg hcond, hmx, if_neg hle]
      by_cases hov : cs.overflowY = "hidden"
      · simp [hov]
      · simp [hov]

/-- Claim C3 witness: the spec's scenario — max-height 120, candidate 300,
`overflow-y: hidden` — yields applied height 120 and the visible-scroll
directive. -/
theorem C3_witness :
    (300 : ℚ) ≠ 0 ∧ ("x" : String) ≠ "" ∧
    clampStyle.maxHeight = some 120 ∧
    calculateHeightFromScrollHeight 300 clampStyle > 120 ∧
    (TextareaResizer.update 300 "x" none clampStyle SheetContent.empty).applied
      = some 120 ∧
    (TextareaResizer.update 300 "x" none clampStyle SheetContent.empty).overflowRule
      = some "overflow: scroll !important;" := by
  have h1 : (300 : ℚ) ≠ 0 := by norm_num
  have h2 : ("x" : String) ≠ "" := by decide
  have hmx : clampStyle.maxHeight = some 120 := rfl
  have hgt : calculateHeightFromScrollHeight 300 clampStyle > 120 := by
    norm_num [calculateHeightFromScrollHeight, clampStyle]
  have h := (C3_maxHeight_clamp 300 "x" none clampStyle SheetContent.empty 120 h1 h2).1
    hmx hgt
  exact ⟨h1, h2, hmx, hgt, h.1, h.2.mpr rfl⟩

/-- Claim C4 as stated: with `scrollHeight = 0` the cycle writes no height
and leaves the previously applied style rules exactly as they were. -/
def C4Statement : Prop :=
  ∀ (v : String) (prev : Option String) (cs : ComputedStyle) (sheet0 : SheetContent),
    (TextareaResizer.update 0 v prev cs sheet0).applied = none ∧
    (TextareaResizer.update 0 v prev cs sheet0).sheet = sheet0

/-- Claim C4 counterexample: starting from a sheet holding a height-42 rule,
an update with `scrollHeight = 0` does not preserve the rules — the source
calls `stylesheetManager.reset()`, leaving the sheet empty. -/
theorem C4_counterexample : ¬ C4Statement := by
  intro h
  have hc := (h "a" none sampleStyle (SheetContent.rules 42 "")).2
  exact absurd hc (by decide)

/-- Claim C4 (amended): with `scrollHeight = 0` the cycle writes no height
(in particular never a zero height) but resets the previously applied style
rules to the empty rule-set rather than leaving them unchanged. -/
theorem C4_amended (v : String) (prev : Option String) (cs : ComputedStyle)
    (sheet0 : SheetContent) :
    (TextareaResizer.update 0 v prev cs sheet0).applied = none ∧
    (TextareaResizer.update 0 v prev cs sheet0).overflowRule = none ∧
    (TextareaResizer.update 0 v prev cs sheet0).sheet = SheetContent.empty := by
  have hcond : (0 : ℚ) = 0 ∨ v = "" := Or.inl rfl
  simp only [TextareaResizer.update, if_pos hcond]
  exact ⟨rfl, rfl, rfl⟩

/-- An active `Controller` instance, reduced to what the registry claims
observe: `updates` counts the recomputations it has run.  The constructor
(`new Controller(textarea)`) runs one immediate `update()`, so a freshly
created Controller has `updates = 1`. -/
structure Controller where
  updates : Nat
deriving DecidableEq, Repr

/-- Per-element state of `AutosizeRegistry` and `LazyLoader` for one tracked
element: `controller` is the `registry.controllers` map entry,
`observersEntry` the `lazyLoader.observers` map entry (the id of the
IntersectionObserver stored there), `liveObservers` every observer created
for this element and not yet disconnected (in creation order),
`nextObserverId` a counter naming the next observer created, and
`activations` the number of times the `onVisible` activation callback has
run. -/
structure ElemState where
  controller : Option Controller
  observersEntry : Option Nat
  liveObservers : List Nat
  nextObserverId : Nat
  activations : Nat
deriving DecidableEq, Repr

/-- State of an element the registry has never seen. -/
def freshElem : ElemState :=
  { controller := none
    observersEntry := none
    liveObservers := []
    nextObserverId := 0
    activations := 0 }

/-- `LazyLoader.setup(element, onVisible)` from the source: creates a new
IntersectionObserver, starts observing, and stores it in the `observers` map
(silently replacing any existing map entry — the source never checks). -/
def LazyLoader.setup (s : ElemState) : ElemState :=
  { s with
    observersEntry := some s.nextObserverId
    liveObservers := s.liveObservers ++ [s.nextObserverId]
    nextObserverId := s.nextObserverId + 1 }

/-- `LazyLoader.cleanup(element)` from the source:
`observers.get(element)?.disconnect(); observers.delete(element)` — the
observer currently in the map (if any) is disconnected and the map entry
dropped. -/
def LazyLoader.cleanup (s : ElemState) : ElemState :=
  match s.observersEntry with
  | none => s
  | some oid =>
    { s with
      observersEntry := none
      liveObservers := s.liveObservers.filter (fun x => x ≠ oid) }

namespace Registry

/-- `AutosizeRegistry.add(textarea)` from the source: no-op when a Controller
is already present; for `autosize="lazy"` it routes through
`LazyLoader.setup`, otherwise it creates a Controller immediately (whose
constructor runs one update). -/
def add (attr : String) (s : ElemState) : ElemState :=
  if s.controller.isSome then s
  else if attr = "lazy" then LazyLoader.setup s
  else { s with controller := some { updates := 1 } }

/-- `AutosizeRegistry.remove(textarea)` from the source:
`controllers.get(textarea)?.destroy(); controllers.delete(textarea);
lazyLoader.cleanup(textarea)`. -/
def remove (s : ElemState) : ElemState :=
  LazyLoader.cleanup { s with controller := none }

end Registry

/-- Delivery of one IntersectionObserver notification carrying
`isIntersecting = intersecting` for the element.  Notifications are only
delivered while a subscription is live (the observer held in the `observers`
map); per the `LazyLoader.setup` callback, an intersecting entry runs the
registry's `onVisible` closure — which stores a freshly constructed
Controller without any presence check — and then `cleanup`. -/
def visibilitySignal (intersecting : Bool) (s : ElemState) : ElemState :=
  match s.observersEntry with
  | none => s
  | some _ =>
    if intersecting then
      LazyLoader.cleanup
        { s with
          controller := some { updates := 1 }
          activations := s.activations + 1 }
    else s

/-- Folding a sequence of visibility notifications over an element state. -/
def runSignals (sigs : List Bool) (s : ElemState) : ElemState :=
  sigs.foldl (fun t b => visibilitySignal b t) s

/-- The state of a lazy-marked element right after registration: a live
one-shot visibility subscription, no Controller. -/
def lazyPendingElem : ElemState := Registry.add "lazy" freshElem

/-- The state of a lazy element after its first qualifying visibility
notification: one activation, a Controller that has run its immediate
update, subscription torn down. -/
def activatedElem : ElemState :=
  { controller := some { updates := 1 }
    observersEntry := none
    liveObservers := []
    nextObserverId := 1
    activations := 1 }

lemma visibilitySignal_activated (b : Bool) :
    visibilitySignal b activatedElem = activatedElem := by
  cases b <;> rfl

lemma runSignals_activated (sigs : List Bool) :
    runSignals sigs activatedElem = activatedElem := by
  induction sigs with
  | nil => rfl
  | cons b rest ih =>
    show runSignals rest (visibilitySignal b activatedElem) = activatedElem
    rw [visibilitySignal_activated, ih]

lemma runSignals_cons (b : Bool) (rest : List Bool) (s : ElemState) :
    runSignals (b :: rest) s = runSignals rest (visibilitySignal b s) := rfl

lemma runSignals_lazyPending (sigs : List Bool) :
    runSignals sigs lazyPendingElem
      = if sigs.any (fun b => b) then activatedElem else lazyPendingElem := by
  induction sigs with
  | nil => rfl
  | cons b rest ih =>
    rw [runSignals_cons]
    cases b with
    | true =>
      have hstep : visibilitySignal true lazyPendingElem = activatedElem := by rfl
      rw [hstep, runSignals_activated]
      simp
    | false =>
      have hstep : visibilitySignal false lazyPendingElem = lazyPendingElem := by rfl
      rw [hstep, ih]
      simp

/-- Claim C6: a lazy-marked element has no Controller before its first
qualifying visibility notification; under any sequence of notifications the
state stays lazy-pending until the first intersecting one, at which point
the activation callback has run exactly once, a Controller with one
immediate recomputation exists, the subscription is torn down, and every
later notification is a no-op (the fold stays at `activatedElem`). -/
theorem C6_lazy_activation (sigs : List Bool) :
    lazyPendingElem.controller = none ∧
    lazyPendingElem.activations = 0 ∧
    runSignals sigs lazyPendingElem
      = (if sigs.any (fun b => b) then activatedElem else lazyPendingElem) ∧
    activatedElem.activations = 1 ∧
    activatedElem.controller = some { updates := 1 } ∧
    activatedElem.observersEntry = none ∧
    (∀ b, visibilitySignal b activatedElem = activatedElem) := by
  refine ⟨rfl, rfl, runSignals_lazyPending sigs, rfl, rfl, rfl, ?_⟩
  intro b
  cases b <;> rfl

/-- Claim C7 as stated: `add` is a no-op on any already-tracked element —
already active (Controller present) or lazy-pending (visibility subscription
present). -/
def C7Statement : Prop :=
  ∀ (attr : String) (s : ElemState),
    (s.controller.isSome || s.observersEntry.isSome) = true →
    Registry.add attr s = s

/-- Claim C7 counterexample: re-adding a lazy-pending element is not a
no-op — `add` only checks the Controller map, so it runs `LazyLoader.setup`
again, installing a second observer. -/
theorem C7_counterexample : ¬ C7Statement := by
  intro h
  have hc := h "lazy" lazyPendingElem (by decide)
  exact absurd hc (by decide)

/-- Claim C7 (amended): `add` is a no-op exactly when a Controller already
exists; re-adding a lazy-pending element instead installs a second live
visibility subscription (the first observer stays live but is dropped from
the map, so two live subscriptions exist for the element). -/
theorem C7_amended (attr : String) (c : Controller) (s : ElemState) :
    Registry.add attr { s with controller := some c } = { s with controller := some c } ∧
    (Registry.add "lazy" lazyPendingElem).liveObservers.length = 2 ∧
    (Registry.add "lazy" lazyPendingElem).observersEntry = some 1 ∧
    lazyPendingElem.liveObservers.length = 1 := by
  refine ⟨?_, by decide, by decide, by decide⟩
  simp [Registry.add]

/-- Claim C9: `remove` is idempotent and double-teardown safe — removing an
untracked element changes nothing, a second removal is a no-op, removal
disconnects a lazy-pending element's subscription, and the activation
callback never runs during removal. -/
theorem C9_remove_idempotent (s : ElemState) (t : ElemState) :
    Registry.remove (Registry.remove s) = Registry.remove s ∧
    Registry.remove { t with controller := none, observersEntry := none }
      = { t with controller := none, observersEntry := none } ∧
    (Registry.remove s).activations = s.activations ∧
    (Registry.remove s).observersEntry = none ∧
    (Registry.remove lazyPendingElem).liveObservers = [] := by
  refine ⟨?_, ?_, ?_, ?_, by decide⟩
  · cases hobs : s.observersEntry <;>
      simp [Registry.remove, LazyLoader.cleanup, hobs]
  · simp [Registry.remove, LazyLoader.cleanup]
  · cases hobs : s.observersEntry <;>
      simp [Registry.remove, LazyLoader.cleanup, hobs]
  · cases hobs : s.observersEntry <;>
      simp [Registry.remove, LazyLoader.cleanup, hobs]

/-- Synchronous outcome of one call to the wrapped `value` setter installed
by `ValueSetter.install`: `storedValue` is what the native setter stored,
`scheduled` the deferred recomputation tasks queued via `setTimeout(..., 0)`,
each carrying its `previousValue` hint. -/
structure WriteEffect where
  storedValue : String
  scheduled : List (Option String)
deriving DecidableEq, Repr

/-- The wrapped setter from `ValueSetter.install`: reads the pre-write value
through the native getter, stores the new value through the native setter,
and — only when the two differ — schedules exactly one deferred
`controller.update({ previousValue })`. -/
def ValueSetter.wrappedSet (currentValue newValue : String) : WriteEffect :=
  { storedValue := newValue
    scheduled := if currentValue = newValue then [] else [some currentValue] }

/-- Claim C5: a programmatic write through the wrapped accessor stores the
new value via the native setter; an identical write schedules no
recomputation, a differing write schedules exactly one deferred
recomputation carrying the pre-write value as the prior-content hint. -/
theorem C5_wrapped_write (currentValue newValue : String) :
    (ValueSetter.wrappedSet currentValue newValue).storedValue = newValue ∧
    (currentValue = newValue →
      (ValueSetter.wrappedSet currentValue newValue).scheduled = []) ∧
    (currentValue ≠ newValue →
      (ValueSetter.wrappedSet currentValue newValue).scheduled = [some currentValue]) := by
  refine ⟨rfl, ?_, ?_⟩
  · intro h
    simp [ValueSetter.wrappedSet, h]
  · intro h
    simp [ValueSetter.wrappedSet, h]

/-- Claim C5 witness: a differing write (`"a"` to `"ab"`) schedules one task
hinted with `"a"`; an identical write (`"a"` to `"a"`) schedules none. -/
theorem C5_witness :
    ("a" : String) ≠ "ab" ∧
    (ValueSetter.wrappedSet "a" "ab").storedValue = "ab" ∧
    (ValueSetter.wrappedSet "a" "ab").scheduled = [some "a"] ∧
    (ValueSetter.wrappedSet "a" "a").scheduled = [] := by
  have hne : ("a" : String) ≠ "ab" := by decide
  have h := C5_wrapped_write "a" "ab"
  have hsame := C5_wrapped_write "a" "a"
  exact ⟨hne, h.1, h.2.2 hne, hsame.2.1 rfl⟩

/-- One recomputation task scheduled by `FormResetHandler.#onReset` via
`setTimeout(..., 1)`: the target element and the `previousValue` hint. -/
structure ScheduledUpdate where
  elem : Nat
  previousValue : Option String
deriving DecidableEq, Repr

/-- `FormResetHandler.#onReset(event)` from the source: for every
`textarea[autosize]` in the resetting container (given here as the list of
(element, pre-reset content) pairs read synchronously at reset time), one
deferred `manager.update(textarea, { previousValue })` is scheduled. -/
def FormResetHandler.onReset (textareas : List (Nat × String)) : List ScheduledUpdate :=
  textareas.map (fun tv => { elem := tv.1, previousValue := some tv.2 })

/-- `AutosizeRegistry.update(textarea, options)` from the source, acting on
the controllers map (elements named by `Nat`):
`controllers.get(textarea)?.update(options)` — the target's Controller, if
any, runs one more recomputation. -/
def Registry.updateOne (controllers : Nat → Option Controller) (t : Nat) :
    Nat → Option Controller :=
  fun x =>
    if x = t then (controllers t).map (fun c => { updates := c.updates + 1 })
    else controllers x

/-- Claim C8: a reset over N tracked textareas schedules exactly N deferred
recomputations, the i-th carrying the i-th element's pre-reset content as
its hint; and a scheduled update for an element without an active Controller
leaves the controllers map unchanged. -/
theorem C8_reset_schedules (textareas : List (Nat × String))
    (controllers : Nat → Option Controller) (t : Nat) :
    (FormResetHandler.onReset textareas).length = textareas.length ∧
    List.Forall₂ (fun tv su => su.elem = tv.1 ∧ su.previousValue = some tv.2)
      textareas (FormResetHandler.onReset textareas) ∧
    (controllers t = none → Registry.updateOne controllers t = controllers) := by
  refine ⟨by simp [FormResetHandler.onReset], ?_, ?_⟩
  · induction textareas with
    | nil => exact List.Forall₂.nil
    | cons tv rest ih => exact List.Forall₂.cons ⟨rfl, rfl⟩ ih
  · intro h
    funext x
    by_cases hx : x = t <;> simp [Registry.updateOne, hx, h]

/-- Claim C8 witness: a reset over two textareas schedules two tasks, and
dispatching to an element with no Controller is a no-op. -/
theorem C8_witness :
    (FormResetHandler.onReset [(0, "alpha"), (1, "beta")]).length
      = [(0, "alpha"), (1, "beta")].length ∧
    (FormResetHandler.onReset [(0, "alpha"), (1, "beta")])
      = [{ elem := 0, previousValue := some "alpha" },
         { elem := 1, previousValue := some "beta" }] ∧
    Registry.updateOne (fun _ => none) 0 = (fun _ => none) := by
  have h := C8_reset_schedules [(0, "alpha"), (1, "beta")] (fun _ => none) 0
  exact ⟨h.1, rfl, h.2.2 rfl⟩

/-- The `value`-accessor state of one textarea: `content` is the content the
platform stores internally (reachable through the native prototype
accessor), `wrapper` the instance-level accessor property installed by
`ValueSetter.install` (carrying the id of the Controller its closure
captured; `none` means the native prototype accessor is in effect), and
`overridden` the `_autosizeValueOverridden` flag. -/
structure TextareaAccessor where
  content : String
  wrapper : Option Nat
  overridden : Bool
deriving DecidableEq, Repr

/-- `ValueSetter.install()` from the source: a no-op when
`_autosizeValueOverridden` is already set; otherwise it defines the
instance-level `value` accessor and sets the flag.  The stored content is
untouched. -/
def ValueSetter.install (cid : Nat) (s : TextareaAccessor) : TextareaAccessor :=
  if s.overridden then s
  else { s with wrapper := some cid, overridden := true }

/-- `ValueSetter.destroy()` from the source: when the flag is set, it
deletes the instance-level `value` property (restoring the prototype
accessor) and deletes the flag; otherwise a no-op.  The stored content is
untouched. -/
def ValueSetter.destroy (s : TextareaAccessor) : TextareaAccessor :=
  if s.overridden then { s with wrapper := none, overridden := false }
  else s

/-- Claim C10: the accessor is wrapped at most once — a second `install`
(with any other controller) never stacks or replaces the first wrapper,
`install` is a no-op whenever the flag is set, and `destroy` removes both
the instance accessor and the flag while leaving the stored content
unchanged. -/
theorem C10_wrap_at_most_once (c₁ c₂ : Nat) (s : TextareaAccessor) :
    ValueSetter.install c₂ (ValueSetter.install c₁ s) = ValueSetter.install c₁ s ∧
    (s.overridden = true → ValueSetter.install c₁ s = s) ∧
    (ValueSetter.destroy (ValueSetter.install c₁ s)).content = s.content ∧
    ValueSetter.destroy { s with wrapper := some c₁, overridden := true }
      = { s with wrapper := none, overridden := false } := by
  refine ⟨?_, ?_, ?_, ?_⟩
  · by_cases h : s.overridden <;> simp [ValueSetter.install, h]
  · intro h
    simp [ValueSetter.install, h]
  · by_cases h : s.overridden <;>
      simp [ValueSetter.install, ValueSetter.destroy, h]
  · simp [ValueSetter.destroy]

/-- Claim C10 witness: installing over an already-overridden accessor is a
no-op, and install-then-destroy preserves the stored content. -/
theorem C10_witness :
    ValueSetter.install 7 { content := "keep", wrapper := some 3, overridden := true }
      = { content := "keep", wrapper := some 3, overridden := true } ∧
    (ValueSetter.destroy
        (ValueSetter.install 3
          { content := "keep", wrapper := none, overridden := false })).content
      = "keep" := by
  have h := C10_wrap_at_most_once 7 0
    ({ content := "keep", wrapper := some 3, overridden := true } : TextareaAccessor)
  have h2 := C10_wrap_at_most_once 3 0
    ({ content := "keep", wrapper := none, overridden := false } : TextareaAccessor)
  exact ⟨h.2.1 rfl, h2.2.2.1⟩

end PureAutosize
